import Mathlib

/-!
# Verification of the lmdbcols typed-collection layer

Shallow embedding of `src/include/lmdbcols.hpp` (namespace `lmdbcols`).

Modelling conventions:
* A C++ object is represented by its object representation, a `List Nat` of
  bytes (each conceptually `< 256`; byte values are never combined
  arithmetically so no modulus is needed).
* C++ template parameters `sizeof(T)` / `alignof(T)` become explicit `Nat`
  arguments of the embedded operations.
* Pointers are byte addresses (`Nat`); `assert(...)` failures are modelled by
  `Option` (`none` = assertion failure / abort).
* The LMDB store is an external collaborator; its contract (spec section 6 and
  the documented LMDB semantics the header relies on) is modelled as a pure
  state machine over named tables of byte strings.
-/

namespace Lmdbcols

/-- Object representation: a sequence of bytes. -/
abbrev Bytes := List Nat

/-! ## is_valid_keyval_type (lmdbcols.hpp lines 93-96)

C++ type traits are compiler intrinsics, so a C++ type is modelled abstractly
by the trait values the header consults, together with the implication the
C++ standard guarantees between them: a POD type (`std::is_pod`, i.e. trivial
and standard-layout) is in particular trivially copyable.  The converse fails
in C++: a trivially copyable type need not be standard-layout nor trivially
default-constructible. -/

structure CppType where
  /-- `sizeof(T)`; at least 1 for every C++ object type. -/
  size : Nat
  /-- `alignof(T)`. -/
  align : Nat
  /-- `std::is_trivially_copyable<T>::value`. -/
  trivially_copyable : Bool
  /-- `std::is_pod<T>::value` (trivial and standard-layout). -/
  pod : Bool
  /-- C++ guarantee: POD implies trivially copyable. -/
  pod_imp_tc : pod = true → trivially_copyable = true

/-- lmdbcols.hpp line 95:
`static constexpr bool value = std::is_pod<T>::value && !(sizeof(T) % 8);`. -/
def is_valid_keyval_type (t : CppType) : Bool :=
  t.pod && (t.size % 8 == 0)

/-- A real C++ type witnessing that trivially-copyable does not imply POD:
`struct NonStdLayout16 { private: double a; public: double b; };`
It is trivially copyable, has `sizeof == 16`, but mixing access specifiers on
non-static data members makes it non-standard-layout, hence not POD. -/
def nonStdLayout16 : CppType :=
  { size := 16, align := 8, trivially_copyable := true, pod := false,
    pod_imp_tc := by simp }

/-! ## EightPadded (lmdbcols.hpp lines 54-72)

`template <typename T> class alignas(8) EightPadded { T _data; ... };`

Layout model (Itanium/standard C++ object layout): the single data member
`_data` sits at offset 0, the class alignment is the `alignas(8)` value
(an `alignas` weaker than the natural alignment of `T` is ill-formed, so a
well-formed instantiation has `alignof(T) <= 8`), and the class size is
`sizeof(T)` rounded up to the class alignment. -/

/-- Round `n` up to the next multiple of `al`, written the way the header
rounds sizes (cf. the mapsize rounding at lmdbcols.hpp lines 208-210):
`(n % al == 0) ? n : n + al - n % al`. -/
def roundUpTo (al n : Nat) : Nat :=
  if n % al = 0 then n else n + al - n % al

/-- `alignof(EightPadded<T>)`: fixed by the `alignas(8)` on the class. -/
def EightPadded.alignofVal : Nat := 8

/-- `sizeof(EightPadded<T>)` as a function of `s = sizeof(T)`:
`s` rounded up to the class alignment 8. -/
def EightPadded.sizeofVal (s : Nat) : Nat :=
  roundUpTo 8 s

/-- Object representation built by `EightPadded(T d)` (lines 61-64):
`memset(this, 0, sizeof(*this)); _data = d;` — a zeroed footprint of
`sizeof(EightPadded<T>)` bytes whose first `s` bytes are then overwritten by
the representation `v` of `d` (member `_data` at offset 0). -/
def EightPadded.mk (s : Nat) (v : Bytes) : Bytes :=
  v ++ List.replicate (EightPadded.sizeofVal s - s) 0

/-- `get`/`cget`/`operator*` (lines 68-71): return `_data`, whose object
representation is the first `s` bytes of the footprint. -/
def EightPadded.get (s : Nat) (rep : Bytes) : Bytes :=
  rep.take s

/-! ## LmdbSpan (lmdbcols.hpp lines 116-179)

`LmdbSpan<T>` holds `const T *m_data; size_t m_size;`.  The model keeps the
pointer as a byte address plus `m_size`, and additionally records the bytes
of memory starting at that address (as far as the span's region extends),
so that element reads can be expressed.  `sizeof(T)` / `alignof(T)` are
passed to each operation. -/

structure LmdbSpan where
  /-- `m_data` as a byte address (`0` models `nullptr`). -/
  addr : Nat
  /-- `m_size`: number of `T` elements claimed by the span. -/
  msize : Nat
  /-- Contents of memory starting at `addr` over the span's region. -/
  bytes : Bytes

/-- `is_aligned_for<TTarg>(ptr)` (lines 121-122): address divisible by
`alignof(TTarg)`. -/
def is_aligned_for (align addr : Nat) : Bool :=
  addr % align == 0

/-- `LmdbSpan(MDB_val mv)` (lines 140-145), for element size `s` and element
alignment `a`: `m_size = mv.mv_size / sizeof(T)`, with asserted
preconditions `mv.mv_size % sizeof(T) == 0` and alignment.  `none` models an
assertion failure. -/
def LmdbSpan.fromMdbVal (s a : Nat) (addr : Nat) (data : Bytes) : Option LmdbSpan :=
  if data.length % s = 0 ∧ is_aligned_for a addr then
    some { addr := addr, msize := data.length / s, bytes := data }
  else
    none

/-- `operator[]` (lines 153-156) for element size `s`: the object
representation of element `n`, i.e. bytes `[s*n, s*n + s)` of the region;
asserts `n < m_size`. -/
def LmdbSpan.elem (s : Nat) (sp : LmdbSpan) (n : Nat) : Option Bytes :=
  if n < sp.msize then some ((sp.bytes.drop (s * n)).take s) else none

/-- `asType<TNew>` (lines 158-164) for source element size `s`, target size
`s2` and target alignment `a2`: asserts `sizeof(TNew) == sizeof(T)*size()`
and alignment, then returns the value whose representation is the span's
bytes. -/
def LmdbSpan.asType (s s2 a2 : Nat) (sp : LmdbSpan) : Option Bytes :=
  if s2 = s * sp.msize ∧ is_aligned_for a2 sp.addr then
    some (sp.bytes.take s2)
  else
    none

/-- `asSpan<TNew>` (lines 166-172) for source element size `s`, target size
`s2` and target alignment `a2`: asserts `(sizeof(T)*m_size) % sizeof(TNew) == 0`
and alignment, then returns `LmdbSpan<TNew>{(TNew*)m_data, m_size/sizeof(TNew)}`
— note the returned count divides `m_size`, not `sizeof(T)*m_size`. -/
def LmdbSpan.asSpan (s s2 a2 : Nat) (sp : LmdbSpan) : Option LmdbSpan :=
  if (s * sp.msize) % s2 = 0 ∧ is_aligned_for a2 sp.addr then
    some { addr := sp.addr, msize := sp.msize / s2, bytes := sp.bytes }
  else
    none

/-! ## The LMDB collaborator, modelled

The store itself is outside the repository (spec section 6).  It is modelled
as a map from collection names to tables of byte strings, with the documented
LMDB behaviour the header relies on:

* `mdb_dbi_open(txn, name, MDB_CREATE)` succeeds if the named table exists;
  on a missing table it creates it in a read-write transaction and fails with
  `EACCES` in a read-only transaction (cf. the FIXME at lmdbcols.hpp
  lines 238-239 acknowledging the read-transaction failure mode).
* `mdb_get` returns `0` with the stored value, or `MDB_NOTFOUND`; other
  collaborator failures (I/O and the like) are modelled by an optional
  injected fault code, so that the wrapper's classification of arbitrary
  backend results can be stated.
* `mdb_put` upserts.

A transaction is a snapshot of the environment state plus its read-only
flag; commit installs the snapshot as the new environment state. -/

/-- LMDB error code `MDB_NOTFOUND` (-30798). -/
def MDB_NOTFOUND : Int := -30798

/-- POSIX `EACCES` (13), returned by `mdb_dbi_open` for `MDB_CREATE` inside a
read-only transaction. -/
def EACCES : Int := 13

/-- POSIX `EINVAL` (22), used for calls on an invalid table handle
(unreachable through the wrapper). -/
def EINVAL : Int := 22

/-- One named table: insertion-ordered association list from key bytes to
value bytes. -/
abbrev Table := List (Bytes × Bytes)

/-- Look a key up in a table. -/
def tblGet (t : Table) (k : Bytes) : Option Bytes :=
  match t with
  | [] => none
  | (k0, v0) :: rest => if k0 = k then some v0 else tblGet rest k

/-- Upsert a key in a table. -/
def tblPut (t : Table) (k v : Bytes) : Table :=
  match t with
  | [] => [(k, v)]
  | (k0, v0) :: rest =>
      if k0 = k then (k0, v) :: rest else (k0, v0) :: tblPut rest k v

/-- Environment state: the named collections and their contents. -/
abbrev EnvState := List (String × Table)

/-- Find a named table in the environment state. -/
def lookupTable (st : EnvState) (name : String) : Option Table :=
  match st with
  | [] => none
  | (n0, t0) :: rest => if n0 = name then some t0 else lookupTable rest name

/-- Whether the environment state holds a collection of this name. -/
def containsName (st : EnvState) (name : String) : Bool :=
  (lookupTable st name).isSome

/-- Create an empty table of this name (no-op if present). -/
def createTable (st : EnvState) (name : String) : EnvState :=
  match st with
  | [] => [(name, [])]
  | (n0, t0) :: rest =>
      if n0 = name then (n0, t0) :: rest else (n0, t0) :: createTable rest name

/-- Replace the contents of a named table. -/
def setTable (st : EnvState) (name : String) (t : Table) : EnvState :=
  match st with
  | [] => []
  | (n0, t0) :: rest =>
      if n0 = name then (n0, t) :: rest else (n0, t0) :: setTable rest name t

/-- A transaction: its read-only flag and its snapshot of the environment. -/
structure Txn where
  isRdonly : Bool
  state : EnvState

/-- `mdb_txn_commit`: the transaction's state becomes the environment's. -/
def Txn.commit (txn : Txn) : EnvState :=
  txn.state

/-- `mdb_dbi_open(txn, name, MDB_CREATE)`: success returns the (possibly
extended) transaction and the table handle, which the model identifies with
the name. -/
def mdbDbiOpenCreate (txn : Txn) (name : String) : Except Int (Txn × String) :=
  if containsName txn.state name then
    .ok (txn, name)
  else if txn.isRdonly then
    .error EACCES
  else
    .ok ({ txn with state := createTable txn.state name }, name)

/-- `mdb_get`: value bytes on success, `MDB_NOTFOUND` for an absent key;
`fault` injects any other collaborator failure. -/
def mdbGet (fault : Option Int) (txn : Txn) (dbi : String) (k : Bytes) :
    Except Int Bytes :=
  match fault with
  | some e => .error e
  | none =>
      match lookupTable txn.state dbi with
      | none => .error EINVAL
      | some t =>
          match tblGet t k with
          | some v => .ok v
          | none => .error MDB_NOTFOUND

/-- The return code of `mdb_get` (`0` = success). -/
def mdbGetRc (fault : Option Int) (txn : Txn) (dbi : String) (k : Bytes) : Int :=
  match mdbGet fault txn dbi k with
  | .ok _ => 0
  | .error e => e

/-- `mdb_put` with flags `0`: upsert; `EACCES` in a read-only transaction. -/
def mdbPut (txn : Txn) (dbi : String) (k v : Bytes) : Except Int Txn :=
  if txn.isRdonly then .error EACCES
  else
    match lookupTable txn.state dbi with
    | none => .error EINVAL
    | some t => .ok { txn with state := setTable txn.state dbi (tblPut t k v) }

/-! ## DbiWrapper (lmdbcols.hpp lines 231-291)

The wrapper is modelled for its default flags instantiation
(`default_dbiflags = MDB_CREATE`, line 232), which is what every collection
class in the header uses.  `lmdb::dbi::open` and `lmdb::error::raise` turn
nonzero return codes into exceptions, modelled by `Except Int`.  Each
operation returns the resulting transaction state alongside its result, since
a table created by `dbi()` stays created in the transaction even when the
operation afterwards fails. -/

structure DbiWrapper where
  dbName : String

/-- `DbiWrapper::dbi` (lines 237-241): open the named table with
`MDB_CREATE`. -/
def DbiWrapper.dbi (d : DbiWrapper) (txn : Txn) : Except Int (Txn × String) :=
  mdbDbiOpenCreate txn d.dbName

/-- `DbiWrapper::put` (lines 249-256): `mdb_put(txn, dbi(txn), &mkey, &mval, 0)`
where `mkey`/`mval` are the `sizeof`-byte object representations of key and
value; raises on a nonzero return code. -/
def DbiWrapper.put (d : DbiWrapper) (txn : Txn) (keyB valB : Bytes) :
    Txn × Except Int Unit :=
  match d.dbi txn with
  | .error e => (txn, .error e)
  | .ok (txn1, h) =>
      match mdbPut txn1 h keyB valB with
      | .error e => (txn1, .error e)
      | .ok txn2 => (txn2, .ok ())

/-- `DbiWrapper::putArray` (lines 258-265): like `put` with
`mval = {sizeof(dat[0])*count, dat}` — the concatenated representations of
the `count` elements. -/
def DbiWrapper.putArray (d : DbiWrapper) (txn : Txn) (keyB : Bytes)
    (els : List Bytes) : Txn × Except Int Unit :=
  match d.dbi txn with
  | .error e => (txn, .error e)
  | .ok (txn1, h) =>
      match mdbPut txn1 h keyB els.flatten with
      | .error e => (txn1, .error e)
      | .ok txn2 => (txn2, .ok ())

/-- `DbiWrapper::get` (lines 269-277): `mdb_get` then
`LmdbSpan<unsigned char>{mval}` (element size and alignment 1, so the span
constructor's assertions hold trivially).  `p` is the address at which the
store exposes the value bytes (`mval.mv_data`, chosen by the collaborator). -/
def DbiWrapper.get (fault : Option Int) (d : DbiWrapper) (txn : Txn)
    (keyB : Bytes) (p : Nat) : Txn × Except Int (Option LmdbSpan) :=
  match d.dbi txn with
  | .error e => (txn, .error e)
  | .ok (txn1, h) =>
      match mdbGet fault txn1 h keyB with
      | .error e => (txn1, .error e)
      | .ok v => (txn1, .ok (LmdbSpan.fromMdbVal 1 1 p v))

/-- `DbiWrapper::exists` (lines 280-290; `exists` is a Lean keyword): its own
`mdb_get`, then a second `dbi(txn)` call (line 286), then classify the return
code: `MDB_NOTFOUND` ↦ `false`, `0` ↦ `true`, anything else raises. -/
def DbiWrapper.existsKey (fault : Option Int) (d : DbiWrapper) (txn : Txn)
    (keyB : Bytes) : Txn × Except Int Bool :=
  match d.dbi txn with
  | .error e => (txn, .error e)
  | .ok (txn1, h) =>
      let rc := mdbGetRc fault txn1 h keyB
      match d.dbi txn1 with
      | .error e2 => (txn1, .error e2)
      | .ok (txn2, _) =>
          if rc = MDB_NOTFOUND then (txn2, .ok false)
          else if rc = 0 then (txn2, .ok true)
          else (txn2, .error rc)

/-! ## MapDB_Pod_Pod (lines 311-333) and MapDB_Pod_PodArray (lines 387-421)

The typed layers, for value size `vsize` and value alignment `valign`
(respectively element size/alignment); keys and values appear as their
object representations. -/

/-- `MapDB_Pod_Pod::put` (lines 323-325). -/
def MapDB_Pod_Pod.put (d : DbiWrapper) (txn : Txn) (keyB valB : Bytes) :
    Txn × Except Int Unit :=
  DbiWrapper.put d txn keyB valB

/-- `MapDB_Pod_Pod::get` (lines 327-330): the byte span from
`DbiWrapper::get`, reinterpreted by `asType<TAllVal>`; the inner `Option` is
`asType`'s assertions. -/
def MapDB_Pod_Pod.get (vsize valign : Nat) (fault : Option Int)
    (d : DbiWrapper) (txn : Txn) (keyB : Bytes) (p : Nat) :
    Txn × Except Int (Option Bytes) :=
  match DbiWrapper.get fault d txn keyB p with
  | (t, .error e) => (t, .error e)
  | (t, .ok sp) => (t, .ok (sp.bind (LmdbSpan.asType 1 vsize valign)))

/-- `MapDB_Pod_PodArray::put` (lines 414-416): delegates to `putArray`. -/
def MapDB_Pod_PodArray.put (d : DbiWrapper) (txn : Txn) (keyB : Bytes)
    (els : List Bytes) : Txn × Except Int Unit :=
  DbiWrapper.putArray d txn keyB els

/-- `MapDB_Pod_PodArray::get` (lines 408-412): the byte span from
`DbiWrapper::get`, reinterpreted by `asSpan<TAllValElem>`. -/
def MapDB_Pod_PodArray.get (esize ealign : Nat) (fault : Option Int)
    (d : DbiWrapper) (txn : Txn) (keyB : Bytes) (p : Nat) :
    Txn × Except Int (Option LmdbSpan) :=
  match DbiWrapper.get fault d txn keyB p with
  | (t, .error e) => (t, .error e)
  | (t, .ok sp) => (t, .ok (sp.bind (LmdbSpan.asSpan 1 esize ealign)))

/-- `MapDB_Pod_PodArray::exists` (lines 418-420): delegates. -/
def MapDB_Pod_PodArray.existsKey (fault : Option Int) (d : DbiWrapper)
    (txn : Txn) (keyB : Bytes) : Txn × Except Int Bool :=
  DbiWrapper.existsKey fault d txn keyB

/-! ## Shared helper lemmas -/

/-- Rounding up to a multiple of 8 equals the ceiling formula. -/
theorem roundUpTo8_eq_ceil (n : Nat) : roundUpTo 8 n = ((n + 7) / 8) * 8 := by
  unfold roundUpTo
  split <;> omega

/-- Rounding up to a multiple of 8 yields a multiple of 8. -/
theorem roundUpTo8_mod (n : Nat) : roundUpTo 8 n % 8 = 0 := by
  unfold roundUpTo
  split <;> omega

/-- Rounding up to a multiple of 8 does not shrink. -/
theorem roundUpTo8_ge (n : Nat) : n ≤ roundUpTo 8 n := by
  unfold roundUpTo
  split <;> omega

/-!
### Claim C1 — `LmdbSpan::asSpan` result size

The claim: for a span of `N` elements of size `s`, retargeted to element size
`s2` with `N*s` a multiple of `s2` and the pointer aligned, `asSpan` succeeds
and the result has `size() = N*s/s2`.

The code computes the result size as `m_size / sizeof(TNew)` (line 171),
i.e. `N / s2`, even though its own precondition assert on line 169 is about
the byte count `sizeof(T) * m_size`.  The two agree only when `sizeof(T) = 1`
(the `LmdbSpan<unsigned char>` call sites inside the header), so the general
claim — and the header's stated intent of reinterpreting the same bytes —
fails, e.g. for one 8-byte element retargeted to an 8-byte type.
-/

/-- C1 (code bug): a span of `N = 1` element of size `s = 8`, reinterpreted
at target element size `s2 = 8` from an aligned pointer, passes both
assertions yet comes back with `size() = 0`, while `N*s/s2 = 1`. -/
theorem c1_asSpan_size_bug :
    (LmdbSpan.asSpan 8 8 8
        { addr := 0, msize := 1, bytes := List.replicate 8 0 }).map LmdbSpan.msize
      = some 0
    ∧ 1 * 8 / 8 = 1 := by
  constructor
  · rfl
  · rfl

/-!
### Claim C4 — `is_valid_keyval_type`

The claim says: true iff the type is trivially copyable and `sizeof` is a
multiple of 8.  Line 95 actually tests `std::is_pod`, which is strictly
stronger than trivially copyable: `nonStdLayout16` (a trivially copyable,
non-standard-layout 16-byte struct) satisfies the claim's predicate but fails
the code's.
-/

/-- C4 counterexample: for the trivially copyable, non-POD, 16-byte C++ type
`nonStdLayout16`, the claim's predicate (trivially copyable and size a
multiple of 8) holds while `is_valid_keyval_type` is false — so the claimed
equivalence fails. -/
theorem c4_is_valid_keyval_type_counterexample :
    (nonStdLayout16.trivially_copyable && (nonStdLayout16.size % 8 == 0)) = true
    ∧ is_valid_keyval_type nonStdLayout16 = false := by
  constructor
  · rfl
  · rfl

/-- C4 (amended): `is_valid_keyval_type<T>` is true iff `T` is POD
(`std::is_pod`, i.e. trivial and standard-layout — strictly stronger than
trivially copyable) and `sizeof(T)` is a multiple of 8. -/
theorem c4_is_valid_keyval_type_iff (t : CppType) :
    is_valid_keyval_type t = true ↔ (t.pod = true ∧ t.size % 8 = 0) := by
  simp [is_valid_keyval_type]

/-!
### Claim C5 — `EightPadded` construction round trip
-/

/-- C5: constructing `EightPadded<T>` from a value with representation `v`
(`s = sizeof(T) = v.length`) and reading the wrapped value back yields `v`
exactly, and every byte of the footprint beyond the first `s` is zero. -/
theorem c5_eightPadded_roundtrip (s : Nat) (v : Bytes) (h : v.length = s) :
    EightPadded.get s (EightPadded.mk s v) = v
    ∧ ∀ b ∈ (EightPadded.mk s v).drop s, b = 0 := by
  subst h
  refine ⟨?_, ?_⟩
  · show (v ++ _).take v.length = v
    exact List.take_left v _
  · intro b hb
    rw [EightPadded.mk, List.drop_left v _] at hb
    exact List.eq_of_mem_replicate hb

/-- C5 witness: the header's own self-test value, `EightPadded<char>{'c'}`
(one byte, value 99). -/
theorem c5_eightPadded_roundtrip_witness :
    ([99] : Bytes).length = 1
    ∧ (EightPadded.get 1 (EightPadded.mk 1 [99]) = [99]
       ∧ ∀ b ∈ (EightPadded.mk 1 [99]).drop 1, b = 0) :=
  ⟨rfl, c5_eightPadded_roundtrip 1 [99] rfl⟩

/-!
### Claim C6 — `EightPadded` footprint
-/

/-- C6: for every C++ type (`1 ≤ sizeof(T)`), `EightPadded<T>` occupies
exactly `ceil(sizeof(T)/8)*8` bytes with alignment 8; in particular the size
is a multiple of 8 and at least `sizeof(T)`. -/
theorem c6_eightPadded_layout (s : Nat) (hs : 1 ≤ s) :
    EightPadded.sizeofVal s = ((s + 7) / 8) * 8
    ∧ EightPadded.sizeofVal s % 8 = 0
    ∧ s ≤ EightPadded.sizeofVal s
    ∧ EightPadded.alignofVal = 8 :=
  ⟨roundUpTo8_eq_ceil s, roundUpTo8_mod s, roundUpTo8_ge s, rfl⟩

/-- C6 witness: at `sizeof(T) = 4` (the header's `TestStruct1`), the
footprint is 8 bytes. -/
theorem c6_eightPadded_layout_witness :
    1 ≤ 4
    ∧ (EightPadded.sizeofVal 4 = ((4 + 7) / 8) * 8
       ∧ EightPadded.sizeofVal 4 % 8 = 0
       ∧ 4 ≤ EightPadded.sizeofVal 4
       ∧ EightPadded.alignofVal = 8) :=
  ⟨by decide, c6_eightPadded_layout 4 (by decide)⟩

/-! ## Helper lemmas about the store model -/

/-- Upserting then looking up the same key finds the new value. -/
theorem tblGet_tblPut_self (t : Table) (k v : Bytes) :
    tblGet (tblPut t k v) k = some v := by
  induction t with
  | nil => simp [tblPut, tblGet]
  | cons kv rest ih =>
      obtain ⟨k0, v0⟩ := kv
      by_cases h : k0 = k
      · simp [tblPut, tblGet, h]
      · simp [tblPut, tblGet, h, ih]

/-- Creating an absent table makes it present and empty. -/
theorem lookupTable_createTable_self (st : EnvState) (name : String)
    (h : containsName st name = false) :
    lookupTable (createTable st name) name = some [] := by
  induction st with
  | nil => simp [createTable, lookupTable]
  | cons nt rest ih =>
      obtain ⟨n0, t0⟩ := nt
      by_cases h0 : n0 = name
      · exfalso
        simp [containsName, lookupTable, h0] at h
      · simp [createTable, lookupTable, h0]
        apply ih
        simpa [containsName, lookupTable, h0] using h

/-- Replacing a present table's contents is visible to lookup. -/
theorem lookupTable_setTable_self (st : EnvState) (name : String)
    (t t0 : Table) (h : lookupTable st name = some t0) :
    lookupTable (setTable st name t) name = some t := by
  induction st with
  | nil => simp [lookupTable] at h
  | cons nt rest ih =>
      obtain ⟨n0, u0⟩ := nt
      by_cases h0 : n0 = name
      · simp [setTable, lookupTable, h0]
      · simp [setTable, lookupTable, h0] at h ⊢
        exact ih h

/-- `DbiWrapper::put` on a read-write transaction succeeds, and afterwards the
transaction's named table holds an upsert of the key. -/
theorem put_result_spec (env0 : EnvState) (name : String) (kb vb : Bytes) :
    (DbiWrapper.put ⟨name⟩ ⟨false, env0⟩ kb vb).2 = .ok ()
    ∧ ∃ t : Table,
        lookupTable (DbiWrapper.put ⟨name⟩ ⟨false, env0⟩ kb vb).1.state name
          = some (tblPut t kb vb) := by
  by_cases hc : containsName env0 name = true
  · obtain ⟨t0, ht0⟩ : ∃ t0, lookupTable env0 name = some t0 := by
      unfold containsName at hc
      exact Option.isSome_iff_exists.mp hc
    have heq : DbiWrapper.put ⟨name⟩ ⟨false, env0⟩ kb vb
        = (⟨false, setTable env0 name (tblPut t0 kb vb)⟩, .ok ()) := by
      unfold DbiWrapper.put DbiWrapper.dbi mdbDbiOpenCreate mdbPut
      simp [hc, ht0]
    rw [heq]
    exact ⟨rfl, t0, lookupTable_setTable_self _ _ _ _ ht0⟩
  · have hc0 : containsName env0 name = false := by
      simpa using hc
    have hlc : lookupTable (createTable env0 name) name = some [] :=
      lookupTable_createTable_self _ _ hc0
    have heq : DbiWrapper.put ⟨name⟩ ⟨false, env0⟩ kb vb
        = (⟨false, setTable (createTable env0 name) name (tblPut [] kb vb)⟩, .ok ()) := by
      unfold DbiWrapper.put DbiWrapper.dbi mdbDbiOpenCreate mdbPut
      simp [hc0, hlc]
    rw [heq]
    exact ⟨rfl, [], lookupTable_setTable_self _ _ _ _ hlc⟩

/-- Typed single-value `get` against a state whose table holds the key:
yields exactly the stored bytes (needs the store's pointer to satisfy the
value type's alignment, the view invariant of spec section 3). -/
theorem typedGet_found (env1 : EnvState) (name : String) (kb vb : Bytes)
    (vsize valign p : Nat) (t : Table)
    (ht : lookupTable env1 name = some t) (hv : tblGet t kb = some vb)
    (hlen : vb.length = vsize) (halign : p % valign = 0) :
    (MapDB_Pod_Pod.get vsize valign none ⟨name⟩ ⟨true, env1⟩ kb p).2
      = .ok (some vb) := by
  have hc : containsName env1 name = true := by
    unfold containsName
    simp [ht]
  unfold MapDB_Pod_Pod.get DbiWrapper.get DbiWrapper.dbi mdbDbiOpenCreate mdbGet
  simp [hc, ht, hv, LmdbSpan.fromMdbVal, LmdbSpan.asType, is_aligned_for,
        Nat.mod_one, Nat.div_one, halign, ← hlen, List.take_length]

/-!
### Claim C2 — TypedMap round trip
-/

/-- C2: storing a ValidLayout key/value pair with `MapDB_Pod_Pod::put` in a
read-write transaction and reading the key back with `get` in a subsequent
transaction (opened on the committed state) succeeds and yields exactly the
stored value bytes.  `p` is the address at which the store exposes the value,
assumed aligned for the value type (the view invariant of spec section 3). -/
theorem c2_mapdb_pod_pod_roundtrip (env0 : EnvState) (name : String)
    (kb vb : Bytes) (vsize valign p : Nat)
    (hlen : vb.length = vsize) (halign : p % valign = 0) :
    (MapDB_Pod_Pod.put ⟨name⟩ ⟨false, env0⟩ kb vb).2 = .ok ()
    ∧ (MapDB_Pod_Pod.get vsize valign none ⟨name⟩
          ⟨true, Txn.commit (MapDB_Pod_Pod.put ⟨name⟩ ⟨false, env0⟩ kb vb).1⟩
          kb p).2
        = .ok (some vb) := by
  obtain ⟨hok, t, ht⟩ := put_result_spec env0 name kb vb
  exact ⟨hok, typedGet_found _ _ _ _ _ _ _ _ ht (tblGet_tblPut_self t kb vb)
    hlen halign⟩

/-- C2 witness: an 8-byte key and 8-byte value in a fresh environment, value
exposed at address 0. -/
theorem c2_mapdb_pod_pod_roundtrip_witness :
    ([10, 20, 30, 40, 50, 60, 70, 80] : Bytes).length = 8
    ∧ (0 : Nat) % 8 = 0
    ∧ ((MapDB_Pod_Pod.put ⟨"tbl"⟩ ⟨false, []⟩ [1, 0, 0, 0, 0, 0, 0, 0]
          [10, 20, 30, 40, 50, 60, 70, 80]).2 = .ok ()
       ∧ (MapDB_Pod_Pod.get 8 8 none ⟨"tbl"⟩
            ⟨true, Txn.commit (MapDB_Pod_Pod.put ⟨"tbl"⟩ ⟨false, []⟩
                [1, 0, 0, 0, 0, 0, 0, 0] [10, 20, 30, 40, 50, 60, 70, 80]).1⟩
            [1, 0, 0, 0, 0, 0, 0, 0] 0).2
          = .ok (some [10, 20, 30, 40, 50, 60, 70, 80])) :=
  ⟨rfl, rfl,
    c2_mapdb_pod_pod_roundtrip [] "tbl" [1, 0, 0, 0, 0, 0, 0, 0]
      [10, 20, 30, 40, 50, 60, 70, 80] 8 8 0 rfl rfl⟩

/-- Flattening a list of `s`-byte blocks yields `s * count` bytes. -/
theorem flatten_length_of_uniform (s : Nat) (els : List Bytes)
    (h : ∀ b ∈ els, b.length = s) :
    els.flatten.length = s * els.length := by
  induction els with
  | nil => simp
  | cons b rest ih =>
      have hb : b.length = s := h b (List.mem_cons_self b rest)
      have hr := ih (fun x hx => h x (List.mem_cons_of_mem b hx))
      simp [hb, hr]
      ring

/-- Slicing `s` bytes at offset `s * i` out of a flattened list of `s`-byte
blocks recovers block `i`. -/
theorem flatten_slice (s : Nat) (els : List Bytes)
    (h : ∀ b ∈ els, b.length = s) (i : Nat) (hi : i < els.length) :
    (els.flatten.drop (s * i)).take s = els.get ⟨i, hi⟩ := by
  induction els generalizing i with
  | nil => exact absurd hi (by simp)
  | cons b rest ih =>
      have hb : b.length = s := h b (List.mem_cons_self b rest)
      cases i with
      | zero =>
          rw [List.flatten_cons, Nat.mul_zero, List.drop_zero, ← hb,
              List.take_left]
          rfl
      | succ j =>
          have hkey : s * (j + 1) = b.length + s * j := by
            rw [hb]
            ring
          rw [List.flatten_cons, hkey, List.drop_append]
          exact ih (fun x hx => h x (List.mem_cons_of_mem b hx)) j
            (Nat.lt_of_succ_lt_succ hi)

/-- `DbiWrapper::putArray` is `put` of the concatenated element bytes
(lines 258-265 build `mval` as the `count*sizeof` contiguous bytes). -/
theorem putArray_eq_put (d : DbiWrapper) (txn : Txn) (kb : Bytes)
    (els : List Bytes) :
    DbiWrapper.putArray d txn kb els = DbiWrapper.put d txn kb els.flatten :=
  rfl

/-- Typed array `get` against a state whose table holds the key: yields the
span over the stored bytes, with `size() = byte length / element size`. -/
theorem typedArrayGet_found (env1 : EnvState) (name : String) (kb w : Bytes)
    (esize ealign p : Nat) (t : Table)
    (ht : lookupTable env1 name = some t) (hv : tblGet t kb = some w)
    (hdvd : w.length % esize = 0) (halign : p % ealign = 0) :
    (MapDB_Pod_PodArray.get esize ealign none ⟨name⟩ ⟨true, env1⟩ kb p).2
      = .ok (some ⟨p, w.length / esize, w⟩) := by
  have hc : containsName env1 name = true := by
    unfold containsName
    simp [ht]
  unfold MapDB_Pod_PodArray.get DbiWrapper.get DbiWrapper.dbi
    mdbDbiOpenCreate mdbGet
  simp [hc, ht, hv, LmdbSpan.fromMdbVal, LmdbSpan.asSpan, is_aligned_for,
        Nat.mod_one, Nat.div_one, halign, hdvd]

/-!
### Claim C3 — TypedArrayMap round trip
-/

/-- C3: storing `N` ValidLayout elements with `MapDB_Pod_PodArray::put` and
reading the key back with `get` in a subsequent transaction yields a view
whose `size()` is exactly `N` and whose elements are, in order, the stored
ones.  `p` is the address at which the store exposes the value, assumed
aligned for the element type (spec section 3 view invariant). -/
theorem c3_mapdb_pod_podarray_roundtrip (env0 : EnvState) (name : String)
    (kb : Bytes) (els : List Bytes) (esize ealign p : Nat)
    (hs : 0 < esize) (hlen : ∀ b ∈ els, b.length = esize)
    (halign : p % ealign = 0) :
    (MapDB_Pod_PodArray.put ⟨name⟩ ⟨false, env0⟩ kb els).2 = .ok ()
    ∧ ∃ sp : LmdbSpan,
        (MapDB_Pod_PodArray.get esize ealign none ⟨name⟩
            ⟨true, Txn.commit (MapDB_Pod_PodArray.put ⟨name⟩ ⟨false, env0⟩
                kb els).1⟩ kb p).2
          = .ok (some sp)
        ∧ sp.msize = els.length
        ∧ ∀ i, ∀ hi : i < els.length,
            LmdbSpan.elem esize sp i = some (els.get ⟨i, hi⟩) := by
  have hput : MapDB_Pod_PodArray.put ⟨name⟩ ⟨false, env0⟩ kb els
      = DbiWrapper.put ⟨name⟩ ⟨false, env0⟩ kb els.flatten := rfl
  obtain ⟨hok, t, ht⟩ := put_result_spec env0 name kb els.flatten
  have hflen : els.flatten.length = esize * els.length :=
    flatten_length_of_uniform esize els hlen
  have hdvd : els.flatten.length % esize = 0 := by
    rw [hflen]
    simp [Nat.mul_mod_right]
  have hmsize : els.flatten.length / esize = els.length := by
    rw [hflen]
    exact Nat.mul_div_cancel_left els.length hs
  rw [hput]
  refine ⟨hok, ⟨p, els.flatten.length / esize, els.flatten⟩, ?_, hmsize, ?_⟩
  · exact typedArrayGet_found _ _ _ _ _ _ _ _ ht
      (tblGet_tblPut_self t kb els.flatten) hdvd halign
  · intro i hi
    have hi2 : i < els.flatten.length / esize := by
      rw [hmsize]
      exact hi
    unfold LmdbSpan.elem
    simp only [hi2, if_pos]
    rw [flatten_slice esize els hlen i hi]

/-- C3 witness: two 8-byte elements in a fresh environment, value exposed at
address 0. -/
theorem c3_mapdb_pod_podarray_roundtrip_witness :
    (0 : Nat) < 8
    ∧ (∀ b ∈ ([[1, 2, 3, 4, 5, 6, 7, 8], [9, 10, 11, 12, 13, 14, 15, 16]] :
          List Bytes), b.length = 8)
    ∧ (0 : Nat) % 8 = 0
    ∧ ((MapDB_Pod_PodArray.put ⟨"arr"⟩ ⟨false, []⟩ [7, 0, 0, 0, 0, 0, 0, 0]
          [[1, 2, 3, 4, 5, 6, 7, 8], [9, 10, 11, 12, 13, 14, 15, 16]]).2
          = .ok ()
       ∧ ∃ sp : LmdbSpan,
          (MapDB_Pod_PodArray.get 8 8 none ⟨"arr"⟩
              ⟨true, Txn.commit (MapDB_Pod_PodArray.put ⟨"arr"⟩ ⟨false, []⟩
                  [7, 0, 0, 0, 0, 0, 0, 0]
                  [[1, 2, 3, 4, 5, 6, 7, 8],
                   [9, 10, 11, 12, 13, 14, 15, 16]]).1⟩
              [7, 0, 0, 0, 0, 0, 0, 0] 0).2
            = .ok (some sp)
          ∧ sp.msize = 2
          ∧ ∀ i, ∀ hi : i < 2,
              LmdbSpan.elem 8 sp i
                = some (([[1, 2, 3, 4, 5, 6, 7, 8],
                          [9, 10, 11, 12, 13, 14, 15, 16]] :
                    List Bytes).get ⟨i, hi⟩)) :=
  ⟨by decide, by decide, rfl,
    c3_mapdb_pod_podarray_roundtrip [] "arr" [7, 0, 0, 0, 0, 0, 0, 0]
      [[1, 2, 3, 4, 5, 6, 7, 8], [9, 10, 11, 12, 13, 14, 15, 16]] 8 8 0
      (by decide) (by decide) rfl⟩

/-- A freshly created table is present. -/
theorem containsName_createTable_of_absent (st : EnvState) (name : String)
    (h : containsName st name = false) :
    containsName (createTable st name) name = true := by
  unfold containsName
  simp [lookupTable_createTable_self st name h]

/-- `DbiWrapper::get` on a read-only transaction never changes the
transaction's state. -/
theorem rdonly_get_state (fault : Option Int) (name : String)
    (env : EnvState) (kb : Bytes) (p : Nat) :
    (DbiWrapper.get fault ⟨name⟩ ⟨true, env⟩ kb p).1 = ⟨true, env⟩ := by
  unfold DbiWrapper.get DbiWrapper.dbi mdbDbiOpenCreate
  by_cases hc : containsName env name
  · simp only [hc, if_pos]
    cases h : mdbGet fault ⟨true, env⟩ name kb <;> simp
  · simp [hc]

/-- `DbiWrapper::exists` on a read-only transaction never changes the
transaction's state. -/
theorem rdonly_existsKey_state (fault : Option Int) (name : String)
    (env : EnvState) (kb : Bytes) :
    (DbiWrapper.existsKey fault ⟨name⟩ ⟨true, env⟩ kb).1 = ⟨true, env⟩ := by
  unfold DbiWrapper.existsKey DbiWrapper.dbi mdbDbiOpenCreate
  by_cases hc : containsName env name
  · simp only [hc, if_pos]
    split
    · rfl
    · split <;> rfl
  · simp [hc]

/-- `DbiWrapper::exists` on a read-write transaction leaves the named table
present in the transaction, creating it if absent. -/
theorem write_existsKey_creates (fault : Option Int) (name : String)
    (env : EnvState) (kb : Bytes) :
    containsName ((DbiWrapper.existsKey fault ⟨name⟩ ⟨false, env⟩ kb).1).state
      name = true := by
  unfold DbiWrapper.existsKey DbiWrapper.dbi mdbDbiOpenCreate
  by_cases hc : containsName env name
  · have hc2 : containsName env name = true := hc
    simp only [hc, if_pos]
    split
    · simp [hc2]
    · split <;> simp [hc2]
  · have hc0 : containsName env name = false := by
      simpa using hc
    have hc1 : containsName (createTable env name) name = true :=
      containsName_createTable_of_absent env name hc0
    simp [hc0, hc1]
    split
    · simp [hc1]
    · split <;> simp [hc1]

/-- `DbiWrapper::get` on a read-write transaction leaves the named table
present in the transaction, creating it if absent. -/
theorem write_get_creates (fault : Option Int) (name : String)
    (env : EnvState) (kb : Bytes) (p : Nat) :
    containsName ((DbiWrapper.get fault ⟨name⟩ ⟨false, env⟩ kb p).1).state
      name = true := by
  unfold DbiWrapper.get DbiWrapper.dbi mdbDbiOpenCreate
  by_cases hc : containsName env name
  · have hc2 : containsName env name = true := hc
    simp only [hc, if_pos]
    split <;> simp [hc2]
  · have hc0 : containsName env name = false := by
      simpa using hc
    have hc1 : containsName (createTable env name) name = true :=
      containsName_createTable_of_absent env name hc0
    simp only [hc, Bool.false_eq_true, if_neg, if_false, Bool.not_eq_true]
    split <;> simp [hc1]

/-!
### Claim C7 — `DbiWrapper::exists` classification of backend results

`exists` (lines 280-290) performs its own `mdb_get` — it is defined directly
over the backend lookup, not by catching the exception `DbiWrapper::get`
raises — and classifies the return code: `MDB_NOTFOUND` ↦ `false`,
success ↦ `true`, anything else raises.
-/

/-- C7: in any transaction whose state holds the named table, `exists`
returns `true` when the backend lookup succeeds, `false` when the backend
reports not-found, and propagates any other backend result (modelled by an
injected fault code) as a failure. -/
theorem c7_exists_backend_classification (name : String) (txn : Txn)
    (t : Table) (kb : Bytes) (ht : lookupTable txn.state name = some t) :
    ((tblGet t kb).isSome = true →
        (DbiWrapper.existsKey none ⟨name⟩ txn kb).2 = .ok true)
    ∧ (tblGet t kb = none →
        (DbiWrapper.existsKey none ⟨name⟩ txn kb).2 = .ok false)
    ∧ ∀ e : Int, e ≠ 0 → e ≠ MDB_NOTFOUND →
        (DbiWrapper.existsKey (some e) ⟨name⟩ txn kb).2 = .error e := by
  have hc : containsName txn.state name = true := by
    unfold containsName
    simp [ht]
  refine ⟨?_, ?_, ?_⟩
  · intro hsome
    obtain ⟨v, hv⟩ := Option.isSome_iff_exists.mp hsome
    unfold DbiWrapper.existsKey DbiWrapper.dbi mdbDbiOpenCreate mdbGetRc mdbGet
    simp [hc, ht, hv, MDB_NOTFOUND]
  · intro hnone
    unfold DbiWrapper.existsKey DbiWrapper.dbi mdbDbiOpenCreate mdbGetRc mdbGet
    simp [hc, ht, hnone]
  · intro e he0 hen
    unfold DbiWrapper.existsKey DbiWrapper.dbi mdbDbiOpenCreate mdbGetRc mdbGet
    simp [hc, ht, hen, he0]

/-- C7 witness: a one-entry table; found key, missing key, and an injected
`EIO`-style fault code 5. -/
theorem c7_exists_backend_classification_witness :
    lookupTable [("t", [([1], [2])])] "t" = some [([1], [2])]
    ∧ ((tblGet [([1], [2])] [1]).isSome = true →
        (DbiWrapper.existsKey none ⟨"t"⟩ ⟨true, [("t", [([1], [2])])]⟩
          [1]).2 = .ok true)
    ∧ ((tblGet [([1], [2])] [3]).isSome = true →
        (DbiWrapper.existsKey none ⟨"t"⟩ ⟨true, [("t", [([1], [2])])]⟩
          [3]).2 = .ok true)
    ∧ (tblGet [([1], [2])] [3] = none →
        (DbiWrapper.existsKey none ⟨"t"⟩ ⟨true, [("t", [([1], [2])])]⟩
          [3]).2 = .ok false)
    ∧ ((5 : Int) ≠ 0 → (5 : Int) ≠ MDB_NOTFOUND →
        (DbiWrapper.existsKey (some 5) ⟨"t"⟩ ⟨true, [("t", [([1], [2])])]⟩
          [1]).2 = .error 5) :=
  ⟨rfl,
    (c7_exists_backend_classification "t" ⟨true, [("t", [([1], [2])])]⟩
      [([1], [2])] [1] rfl).1,
    (c7_exists_backend_classification "t" ⟨true, [("t", [([1], [2])])]⟩
      [([1], [2])] [3] rfl).1,
    (c7_exists_backend_classification "t" ⟨true, [("t", [([1], [2])])]⟩
      [([1], [2])] [3] rfl).2.1,
    fun h5 hn => (c7_exists_backend_classification "t"
      ⟨true, [("t", [([1], [2])])]⟩ [([1], [2])] [1] rfl).2.2 5 h5 hn⟩

/-!
### Claim C8 — never-written key: `get` not-found, `exists` false

As universally stated the claim fails: in a read-only transaction over an
environment in which the named collection was never created (so no key was
ever written to it), `dbi()`'s `MDB_CREATE` open fails with `EACCES` before
any lookup, so `get` fails with a non-not-found backend error and `exists`
raises instead of returning `false` (cf. claim C10).  The claim holds
whenever the collection is present, or the transaction is read-write (the
open then creates the empty collection).
-/

/-- C8 counterexample: in a read-only transaction on a fresh environment
(collection `"t"` absent, hence no key ever written to it), `get` of an
unwritten key fails with `EACCES`, not the not-found condition, and `exists`
for the same key propagates that failure instead of returning `false`. -/
theorem c8_never_written_counterexample :
    (DbiWrapper.get none ⟨"t"⟩ ⟨true, []⟩ [0] 0).2 = .error EACCES
    ∧ (DbiWrapper.existsKey none ⟨"t"⟩ ⟨true, []⟩ [0]).2 = .error EACCES
    ∧ EACCES ≠ MDB_NOTFOUND := by
  refine ⟨rfl, rfl, by decide⟩

/-- C8 (amended): for a key never written to the collection, provided the
collection is present in the environment or the transaction is read-write,
`get` fails with exactly the not-found condition — a code distinct from the
other backend codes, not an empty result — and `exists` returns `false`. -/
theorem c8_never_written_get_exists (env0 : EnvState) (ro : Bool)
    (name : String) (kb : Bytes) (p : Nat)
    (habsent : ∀ t, lookupTable env0 name = some t → tblGet t kb = none)
    (hok : containsName env0 name = true ∨ ro = false) :
    (DbiWrapper.get none ⟨name⟩ ⟨ro, env0⟩ kb p).2 = .error MDB_NOTFOUND
    ∧ (DbiWrapper.existsKey none ⟨name⟩ ⟨ro, env0⟩ kb).2 = .ok false
    ∧ MDB_NOTFOUND ≠ 0 ∧ MDB_NOTFOUND ≠ EACCES ∧ MDB_NOTFOUND ≠ EINVAL := by
  refine ⟨?_, ?_, by decide, by decide, by decide⟩
  · by_cases hc : containsName env0 name = true
    · obtain ⟨t, ht⟩ : ∃ t, lookupTable env0 name = some t := by
        unfold containsName at hc
        exact Option.isSome_iff_exists.mp hc
      unfold DbiWrapper.get DbiWrapper.dbi mdbDbiOpenCreate mdbGet
      simp [hc, ht, habsent t ht]
    · have hc0 : containsName env0 name = false := by
        simpa using hc
      have hro : ro = false := by
        rcases hok with h | h
        · exact absurd h hc
        · exact h
      have hlc : lookupTable (createTable env0 name) name = some [] :=
        lookupTable_createTable_self _ _ hc0
      unfold DbiWrapper.get DbiWrapper.dbi mdbDbiOpenCreate mdbGet
      simp [hc0, hro, hlc, tblGet]
  · by_cases hc : containsName env0 name = true
    · obtain ⟨t, ht⟩ : ∃ t, lookupTable env0 name = some t := by
        unfold containsName at hc
        exact Option.isSome_iff_exists.mp hc
      unfold DbiWrapper.existsKey DbiWrapper.dbi mdbDbiOpenCreate mdbGetRc
        mdbGet
      simp [hc, ht, habsent t ht]
    · have hc0 : containsName env0 name = false := by
        simpa using hc
      have hro : ro = false := by
        rcases hok with h | h
        · exact absurd h hc
        · exact h
      have hc1 : containsName (createTable env0 name) name = true :=
        containsName_createTable_of_absent env0 name hc0
      have hlc : lookupTable (createTable env0 name) name = some [] :=
        lookupTable_createTable_self _ _ hc0
      unfold DbiWrapper.existsKey DbiWrapper.dbi mdbDbiOpenCreate mdbGetRc
        mdbGet
      simp [hc0, hro, hc1, hlc, tblGet]

/-- C8 witness: collection present with one other entry; the queried key was
never written. -/
theorem c8_never_written_get_exists_witness :
    (∀ t, lookupTable [("t", [([1], [2])])] "t" = some t →
        tblGet t [3] = none)
    ∧ (containsName [("t", [([1], [2])])] "t" = true ∨ (true : Bool) = false)
    ∧ ((DbiWrapper.get none ⟨"t"⟩ ⟨true, [("t", [([1], [2])])]⟩ [3] 0).2
          = .error MDB_NOTFOUND
       ∧ (DbiWrapper.existsKey none ⟨"t"⟩ ⟨true, [("t", [([1], [2])])]⟩
            [3]).2 = .ok false
       ∧ MDB_NOTFOUND ≠ 0 ∧ MDB_NOTFOUND ≠ EACCES ∧ MDB_NOTFOUND ≠ EINVAL) :=
  ⟨fun t htl => by
      injection htl with h
      rw [← h]
      rfl,
    Or.inl rfl,
    c8_never_written_get_exists [("t", [([1], [2])])] true "t" [3] 0
      (fun t htl => by
        injection htl with h
        rw [← h]
        rfl)
      (Or.inl rfl)⟩

/-!
### Claim C9 — collection creation

The claim's first half holds: an absent collection is created by the first
`put` (its `dbi()` opens with `MDB_CREATE`).  Its second half fails: `get`
and `exists` open the table handle with the same `MDB_CREATE` flag, so in a
read-write transaction they too create an absent collection — `exists`
even returns normally (`false`), leaving the created table to be committed.
Only in read-only transactions do the non-writing operations leave the set
of named collections unchanged.
-/

/-- C9 counterexample: in a read-write transaction on a fresh environment,
the non-writing `exists` returns `false` yet creates collection `"t"`: after
commit the environment's set of named collections has changed. -/
theorem c9_nonwriting_creates_counterexample :
    containsName [] "t" = false
    ∧ (DbiWrapper.existsKey none ⟨"t"⟩ ⟨false, []⟩ [0]).2 = .ok false
    ∧ containsName
        (Txn.commit (DbiWrapper.existsKey none ⟨"t"⟩ ⟨false, []⟩ [0]).1) "t"
      = true :=
  ⟨rfl, rfl, rfl⟩

/-- C9 (amended): an absent named collection is created by the first
operation on it in a read-write transaction — `put`, but equally the
non-writing `get` and `exists`, since every operation opens the table handle
with the creation flag; in read-only transactions `get` and `exists` leave
the transaction's view of the named collections unchanged. -/
theorem c9_collection_creation (env0 : EnvState) (name : String)
    (kb vb : Bytes) (p : Nat) (fault : Option Int) :
    containsName
        (Txn.commit (DbiWrapper.put ⟨name⟩ ⟨false, env0⟩ kb vb).1) name = true
    ∧ containsName
        ((DbiWrapper.existsKey fault ⟨name⟩ ⟨false, env0⟩ kb).1).state name
        = true
    ∧ containsName
        ((DbiWrapper.get fault ⟨name⟩ ⟨false, env0⟩ kb p).1).state name = true
    ∧ ∀ env : EnvState,
        (DbiWrapper.get fault ⟨name⟩ ⟨true, env⟩ kb p).1 = ⟨true, env⟩
        ∧ (DbiWrapper.existsKey fault ⟨name⟩ ⟨true, env⟩ kb).1 = ⟨true, env⟩ := by
  refine ⟨?_, write_existsKey_creates fault name env0 kb,
    write_get_creates fault name env0 kb p,
    fun env => ⟨rdonly_get_state fault name env kb p,
      rdonly_existsKey_state fault name env kb⟩⟩
  obtain ⟨-, t, ht⟩ := put_result_spec env0 name kb vb
  unfold containsName Txn.commit
  simp [ht]

/-!
### Claim C10 — read-only transaction over a missing collection
-/

/-- C10: in a read-only transaction on an environment in which the named
collection was never created, both `get` and `exists` fail with the backend
error of the `MDB_CREATE` table-open step (`EACCES`), which is not the
not-found condition — `get` does not signal not-found and `exists` does not
return `false`. -/
theorem c10_rdonly_missing_table_open_fails (env0 : EnvState) (name : String)
    (kb : Bytes) (p : Nat) (fault : Option Int)
    (habsent : containsName env0 name = false) :
    mdbDbiOpenCreate ⟨true, env0⟩ name = .error EACCES
    ∧ (DbiWrapper.get fault ⟨name⟩ ⟨true, env0⟩ kb p).2 = .error EACCES
    ∧ (DbiWrapper.existsKey fault ⟨name⟩ ⟨true, env0⟩ kb).2 = .error EACCES
    ∧ EACCES ≠ MDB_NOTFOUND := by
  have hopen : mdbDbiOpenCreate ⟨true, env0⟩ name = .error EACCES := by
    unfold mdbDbiOpenCreate
    simp [habsent]
  refine ⟨hopen, ?_, ?_, by decide⟩
  · unfold DbiWrapper.get DbiWrapper.dbi
    rw [hopen]
  · unfold DbiWrapper.existsKey DbiWrapper.dbi
    rw [hopen]

/-- C10 witness: a fresh, empty environment. -/
theorem c10_rdonly_missing_table_open_fails_witness :
    containsName [] "t" = false
    ∧ (mdbDbiOpenCreate ⟨true, []⟩ "t" = .error EACCES
       ∧ (DbiWrapper.get none ⟨"t"⟩ ⟨true, []⟩ [0] 0).2 = .error EACCES
       ∧ (DbiWrapper.existsKey none ⟨"t"⟩ ⟨true, []⟩ [0]).2 = .error EACCES
       ∧ EACCES ≠ MDB_NOTFOUND) :=
  ⟨rfl, c10_rdonly_missing_table_open_fails [] "t" [0] 0 none rfl⟩

end Lmdbcols
